import Mathlib

/-!
Verification development for the utilhq host SDK core
(`src/classes/DuplexRPCClient.ts`, which bundles `DuplexRPCClient`,
`UtilHQClient` and the internal RPC schema, plus
`src/classes/Action.ts` containing `TransactionLoadingState`).

We shallowly embed the runtime state kept by `UtilHQClient`
(string-keyed maps mirroring the JS `Map`s), the synchronous effects of
the inbound RPC handlers, the action-result promise chain, the loading
state mutators, the send/retry loops and the log truncation, and prove
or refute the specification claims about them.
-/

namespace UtilHQ

/-! ### String-keyed maps (JS `Map` semantics)

The runtime state of `UtilHQClient` lives in JS `Map`s keyed by
`TransactionId` / `PageKey` / slug strings.  We embed them as
association lists with key-unique insert (`Map.set`), full-key erase
(`Map.delete`) and first-match lookup (`Map.get`). -/

abbrev SMap (α : Type) := List (String × α)

def SMap.find? {α : Type} : SMap α → String → Option α
  | [], _ => none
  | (k', v) :: rest, k => if k' = k then some v else SMap.find? rest k

def SMap.erase {α : Type} : SMap α → String → SMap α
  | [], _ => []
  | (k', v) :: rest, k =>
    if k' = k then SMap.erase rest k else (k', v) :: SMap.erase rest k

def SMap.insert {α : Type} (m : SMap α) (k : String) (v : α) : SMap α :=
  (k, v) :: SMap.erase m k

/-! ### Loading state (`TransactionLoadingState`, `src/classes/Action.ts`)

`BackwardCompatibleLoadingState` fields.  JS `undefined` is `none`; the
JS truthiness test `if (x)` on a number field is false for `undefined`
and for `0`. -/

structure LoadingOptions where
  label : Option String := none
  description : Option String := none
  itemsInQueue : Option Int := none
deriving DecidableEq, Repr

structure LState where
  label : Option String := none
  description : Option String := none
  itemsInQueue : Option Int := none
  itemsCompleted : Option Int := none
deriving DecidableEq, Repr

/-- JS truthiness of an optional numeric field: `undefined` and `0` are falsy. -/
def truthyNum : Option Int → Bool
  | none => false
  | some n => n != 0

/-- One `Option` field overriding another, as in `Object.assign`:
a key present in the source replaces the value in the target. -/
def overrideOpt {α : Type} (newVal oldVal : Option α) : Option α :=
  match newVal with
  | some v => some v
  | none => oldVal

/-- Method `TransactionLoadingState.start`: replaces the state with the given
options; when `itemsInQueue` is truthy, `itemsCompleted` is reset to 0. -/
def TransactionLoadingState.start (options : LoadingOptions) (_state : Option LState) :
    Option LState :=
  let st : LState :=
    { label := options.label
      description := options.description
      itemsInQueue := options.itemsInQueue
      itemsCompleted := none }
  if truthyNum st.itemsInQueue then some { st with itemsCompleted := some 0 }
  else some st

/-- Method `TransactionLoadingState.update`: with no existing state, warns and
falls back to `start`; otherwise `Object.assign`s the options onto the
state and zero-fills `itemsCompleted` when `itemsInQueue` is truthy and
`itemsCompleted` is undefined. -/
def TransactionLoadingState.update (options : LoadingOptions) (state : Option LState) :
    Option LState :=
  match state with
  | none => TransactionLoadingState.start options none
  | some st =>
    let st' : LState :=
      { label := overrideOpt options.label st.label
        description := overrideOpt options.description st.description
        itemsInQueue := overrideOpt options.itemsInQueue st.itemsInQueue
        itemsCompleted := st.itemsCompleted }
    if truthyNum st'.itemsInQueue ∧ st'.itemsCompleted = none then
      some { st' with itemsCompleted := some 0 }
    else some st'

/-- Method `TransactionLoadingState.completeOne`: warning no-op unless a state
with truthy `itemsInQueue` exists; otherwise zero-fills `itemsCompleted`
if undefined and increments it.  There is no upper clamp. -/
def TransactionLoadingState.completeOne (state : Option LState) : Option LState :=
  match state with
  | none => none
  | some st =>
    if truthyNum st.itemsInQueue then
      some { st with itemsCompleted := some (st.itemsCompleted.getD 0 + 1) }
    else some st

inductive LoadingOp where
  | start (options : LoadingOptions)
  | update (options : LoadingOptions)
  | completeOne
deriving DecidableEq, Repr

def applyLoadingOp (state : Option LState) : LoadingOp → Option LState
  | .start options => TransactionLoadingState.start options state
  | .update options => TransactionLoadingState.update options state
  | .completeOne => TransactionLoadingState.completeOne state

/-- The loading state of a transaction after a sequence of `ctx.loading` calls,
beginning from the initial undefined state. -/
def runLoadingOps (ops : List LoadingOp) : Option LState :=
  ops.foldl applyLoadingOp none

/-! ### `UtilHQClient` runtime state (`src/classes/DuplexRPCClient.ts`)

The client keeps per-transaction state in private `Map`s
(`#pendingIOCalls`, `#transactionLoadingStates`, `#ioResponseHandlers`,
`#ioClients`, `#actionHandlers`) plus shutdown flags
(`#resolveShutdown`, `#intentionallyClosed`) and the socket.  Handler
values are abstracted to opaque tags (`Nat`); an `IOClient` is reduced
to the `inlineActionKeys` that `#closeTransaction` consults. -/

structure IOClientModel where
  inlineActionKeys : List String := []
deriving DecidableEq, Repr

structure ClientState where
  pendingIOCalls : SMap String
  transactionLoadingStates : SMap LState
  ioResponseHandlers : SMap Nat
  ioClients : SMap IOClientModel
  actionHandlers : SMap Nat
  hasOrganization : Bool
  /-- Whether `#resolveShutdown` is set (a `safelyClose` call is waiting to resolve). -/
  resolveShutdown : Bool
  /-- A `setTimeout(#resolveShutdown, #completeShutdownDelayMs)` is scheduled. -/
  shutdownTimerSet : Bool
  /-- The promise returned by `safelyClose` has resolved. -/
  shutdownResolved : Bool
  socketOpen : Bool
  intentionallyClosed : Bool
deriving DecidableEq, Repr

/-- Method `#closeTransaction(transactionId)`: deletes the pending IO call, the
loading state, the IO response handler and the IO client keyed by the
TransactionId (also dropping the inline action handlers of the client), then,
if a shutdown is pending and `#ioResponseHandlers` is now empty,
schedules the shutdown resolution after `#completeShutdownDelayMs`. -/
def closeTransaction (transactionId : String) (s : ClientState) : ClientState :=
  let s1 := { s with
    pendingIOCalls := SMap.erase s.pendingIOCalls transactionId
    transactionLoadingStates := SMap.erase s.transactionLoadingStates transactionId
    ioResponseHandlers := SMap.erase s.ioResponseHandlers transactionId }
  let s2 :=
    match SMap.find? s1.ioClients transactionId with
    | some client =>
      { s1 with
        ioClients := SMap.erase s1.ioClients transactionId
        actionHandlers :=
          client.inlineActionKeys.foldl (fun m key => SMap.erase m key) s1.actionHandlers }
    | none => s1
  if s2.resolveShutdown = true ∧ s2.ioResponseHandlers.length = 0 then
    { s2 with shutdownTimerSet := true }
  else s2

/-- Synchronous state effect of the `START_TRANSACTION` responder: refuse
while shutting down, without an organization, when the TransactionId
already has an IO response handler, or when the slug has no action
handler; otherwise register the response handler of the new IOClient and
the client itself under the TransactionId. -/
def startTransaction (transactionId slug : String) (s : ClientState) : ClientState :=
  if s.resolveShutdown then s
  else if s.hasOrganization = false then s
  else if (SMap.find? s.ioResponseHandlers transactionId).isSome then s
  else
    match SMap.find? s.actionHandlers slug with
    | none => s
    | some handlerTag =>
      { s with
        ioResponseHandlers := SMap.insert s.ioResponseHandlers transactionId handlerTag
        ioClients := SMap.insert s.ioClients transactionId { inlineActionKeys := [] } }

/-- Method `immediatelyClose()`: clears `#resolveShutdown`, marks the close
intentional and closes the socket without draining. -/
def immediatelyClose (s : ClientState) : ClientState :=
  { s with resolveShutdown := false, intentionallyClosed := true, socketOpen := false }

/-- Synchronous state effect of `safelyClose()` once the
`BEGIN_HOST_SHUTDOWN` RPC has returned: on an error reply it throws with
no state change; with `#ioResponseHandlers` already empty it closes
immediately and resolves; otherwise it parks the resolver in
`#resolveShutdown` and waits. -/
def safelyCloseStep (accepted : Bool) (s : ClientState) : ClientState :=
  if accepted = false then s
  else if s.ioResponseHandlers.length = 0 then
    { immediatelyClose s with shutdownResolved := true }
  else { s with resolveShutdown := true }

/-- The `#completeShutdownDelayMs` timer scheduled by `#closeTransaction`
fires: `#resolveShutdown?.()` resolves the `safelyClose` promise, whose
continuation clears the resolver and calls `immediatelyClose`. -/
def shutdownTimerFired (s : ClientState) : ClientState :=
  if s.shutdownTimerSet = true ∧ s.resolveShutdown = true then
    { immediatelyClose s with shutdownResolved := true, shutdownTimerSet := false }
  else s

inductive HostEvent where
  | safelyCloseRequested (accepted : Bool)
  | startTransactionMsg (transactionId slug : String)
  | closeTransactionMsg (transactionId : String)
  | shutdownDelayElapsed
deriving DecidableEq, Repr

/-- One step of the host controller: inbound server messages
(`START_TRANSACTION`, `CLOSE_TRANSACTION`) are only delivered while the
socket is open; `safelyClose` and the shutdown-delay timer act on the
local state. -/
def hostStep (s : ClientState) (e : HostEvent) : ClientState :=
  match e with
  | .safelyCloseRequested accepted => safelyCloseStep accepted s
  | .startTransactionMsg transactionId slug =>
    if s.socketOpen then startTransaction transactionId slug s else s
  | .closeTransactionMsg transactionId =>
    if s.socketOpen then closeTransaction transactionId s else s
  | .shutdownDelayElapsed => shutdownTimerFired s

/-- Freshly connected and initialized host: empty runtime maps, the
given registered action handlers, an organization from
`INITIALIZE_HOST`, and an open socket. -/
def initState (actionHandlers : SMap Nat) : ClientState :=
  { pendingIOCalls := []
    transactionLoadingStates := []
    ioResponseHandlers := []
    ioClients := []
    actionHandlers := actionHandlers
    hasOrganization := true
    resolveShutdown := false
    shutdownTimerSet := false
    shutdownResolved := false
    socketOpen := true
    intentionallyClosed := false }

def runEvents (actionHandlers : SMap Nat) (events : List HostEvent) : ClientState :=
  events.foldl hostStep (initState actionHandlers)

/-! ### The action-result promise chain (`handleAction` in `START_TRANSACTION`)

`actionHandler(io, ctx)` is followed by
`.then` (SUCCESS result) `.catch` (rethrow `IOError{CANCELED}`,
otherwise FAILURE result) `.then` (send `MARK_TRANSACTION_COMPLETE`
with `res.status`) `.catch` (log the rethrown cancellation or send
error). -/

inductive IOErrorKind where
  | CANCELED
  | TRANSACTION_CLOSED
  | BAD_RESPONSE
  | RENDER_ERROR
deriving DecidableEq, Repr

inductive ResultStatus where
  | SUCCESS
  | FAILURE
  | CANCELED
  | REDIRECTED
deriving DecidableEq, Repr

/-- Settlement of the promise returned by the user handler. -/
inductive HandlerOutcome where
  | resolved
  | rejectedIOError (kind : IOErrorKind)
  | rejectedOther
deriving DecidableEq, Repr

/-- First `.then`/`.catch` pair of `handleAction`: a resolved handler
yields a SUCCESS result; a rejection with `IOError{CANCELED}` is
rethrown (`Except.error`); any other rejection yields a FAILURE result
with serialized error data. -/
def actionResultStatus : HandlerOutcome → Except Unit ResultStatus
  | .resolved => .ok .SUCCESS
  | .rejectedIOError kind =>
    if kind = .CANCELED then .error () else .ok .FAILURE
  | .rejectedOther => .ok .FAILURE

/-- The status carried by the `MARK_TRANSACTION_COMPLETE` message the
host sends for the transaction, or `none` when the reporting `.then` is
skipped because the cancellation error was rethrown and the final
`.catch` only logs it. -/
def markTransactionCompleteSent (outcome : HandlerOutcome) : Option ResultStatus :=
  match actionResultStatus outcome with
  | .ok status => some status
  | .error _ => none

/-! ### `UtilHQClient.#send` retry loop and `maxResendAttempts` config

The constructor only honours `config.maxResendAttempts` when it is
truthy and positive (`if (config.maxResendAttempts &&
config.maxResendAttempts > 0)`); otherwise the default `10` stands.
`#send` loops `attemptNumber` from 1 to `#maxResendAttempts`, retrying
on `TimeoutError`, rethrowing other errors, and throws
`Maximum failed resend attempts reached` when the loop ends. -/

def effectiveMaxResendAttempts (configValue : Option Int) : Int :=
  match configValue with
  | some v => if v ≠ 0 ∧ 0 < v then v else 10
  | none => 10

inductive AttemptOutcome where
  | ok
  | timeout
  | failedOther
deriving DecidableEq, Repr

inductive SendResult where
  | success (attemptsMade : Nat)
  | maxAttemptsError (attemptsMade : Nat)
  | failed (attemptsMade : Nat)
deriving DecidableEq, Repr

/-- The `for` loop of `#send`, with `attempts n` the settlement of the
(n+1)-st `serverRpc.send`: `remaining` counts the loop iterations left. -/
def sendLoopAux (attempts : Nat → AttemptOutcome) (made : Nat) : Nat → SendResult
  | 0 => .maxAttemptsError made
  | n + 1 =>
    match attempts made with
    | .ok => .success (made + 1)
    | .timeout => sendLoopAux attempts (made + 1) n
    | .failedOther => .failed (made + 1)

def clientSend (maxResendAttempts : Nat) (attempts : Nat → AttemptOutcome) : SendResult :=
  sendLoopAux attempts 0 maxResendAttempts

/-! ### `DuplexRPCClient` inbound `CALL` handling

`onmessage` parses the duplex frame; for `kind: CALL` it runs
`handleReceivedCall`, which throws on an unknown method and on an
input-schema `ZodError` (`method.inputs.parse(parsed.data)`), and
otherwise responds with the return value of the handler.  Thrown errors are
caught and logged in `onmessage`; nothing is sent back and the
connection is never closed. -/

inductive CallHandling (Out : Type) where
  | responseSent (value : Out)
  | droppedNoMethod
  | droppedInvalidCall
deriving DecidableEq, Repr

structure CallProcess (Out : Type) where
  handling : CallHandling Out
  connectionKilled : Bool
deriving DecidableEq, Repr

def processReceivedCall {Inp Out : Type} (methodKnown : Bool)
    (inputParse : Except Unit Inp) (handler : Inp → Out) : CallProcess Out :=
  if methodKnown = false then { handling := .droppedNoMethod, connectionKilled := false }
  else
    match inputParse with
    | .error _ => { handling := .droppedInvalidCall, connectionKilled := false }
    | .ok inputs => { handling := .responseSent (handler inputs), connectionKilled := false }

/-! ### `DuplexRPCClient` pending calls and `RESPONSE` handling -/

/-- Method `send` registers the reply continuation under the fresh call id
(`this.pendingCalls.set(id, ...)`). -/
def registerPendingCall {R : Type} (pendingCalls : SMap R) (id : String) (onReply : R) :
    SMap R :=
  SMap.insert pendingCalls id onReply

/-- Method `handleReceivedResponse`: looks up the pending call for the
id of the response; with no match it returns with no effect, otherwise it
invokes the reply continuation (returned here as the second component)
and deletes the entry. -/
def handleReceivedResponse {R : Type} (pendingCalls : SMap R) (id : String) :
    SMap R × Option R :=
  match SMap.find? pendingCalls id with
  | none => (pendingCalls, none)
  | some onReply => (SMap.erase pendingCalls id, some onReply)

/-! ### Log truncation (`UtilHQClient.#sendLog`) -/

def LOG_TRUNCATION_MARKER : String :=
  "..." ++
    "\n^ Warning: 10k logline character limit reached.\nTo avoid this error, try separating your data into multiple ctx.log() calls."

/-- The joined `ctx.log` payload as sent: left alone up to 10,000
characters, otherwise cut to the first 10,000 with the warning marker
appended. -/
def sendLogData (data : String) : String :=
  if data.length > 10000 then String.take data 10000 ++ LOG_TRUNCATION_MARKER
  else data

/-! ### Chunked-send retry (`DuplexRPCClient.send`, chunked branch)

Each chunk is sent in a loop `for (i = 0; i <= NUM_TRIES_PER_CHUNK; i++)`;
a `TimeoutError` sleeps `#retryChunkIntervalMs` and retries, any other
error propagates, and exhausting the loop throws a `TimeoutError`,
which `Promise.allSettled` then surfaces as the rejection of the
send promise of the caller. -/

def NUM_TRIES_PER_CHUNK : Nat := 3

inductive ChunkAttemptOutcome where
  | delivered
  | timedOut
  | otherError
deriving DecidableEq, Repr

inductive ChunkSendResult where
  | delivered (attemptsMade : Nat) (sleepsMs : List Nat)
  | timeoutPropagated (attemptsMade : Nat) (sleepsMs : List Nat)
  | errorPropagated (attemptsMade : Nat) (sleepsMs : List Nat)
deriving DecidableEq, Repr

def sendChunkAux (retryChunkIntervalMs : Nat) (attempts : Nat → ChunkAttemptOutcome)
    (made : Nat) (sleeps : List Nat) : Nat → ChunkSendResult
  | 0 => .timeoutPropagated made sleeps
  | n + 1 =>
    match attempts made with
    | .delivered => .delivered (made + 1) sleeps
    | .timedOut =>
      sendChunkAux retryChunkIntervalMs attempts (made + 1) (sleeps ++ [retryChunkIntervalMs]) n
    | .otherError => .errorPropagated (made + 1) sleeps

/-- Transmission of one chunk, with `attempts n` the settlement of its
(n+1)-st `communicator.send`: at most `NUM_TRIES_PER_CHUNK + 1` sends. -/
def sendChunk (retryChunkIntervalMs : Nat) (attempts : Nat → ChunkAttemptOutcome) :
    ChunkSendResult :=
  sendChunkAux retryChunkIntervalMs attempts 0 [] (NUM_TRIES_PER_CHUNK + 1)

/-! ### Auxiliary definitions for the statements below -/

/-- Invariant tying the shutdown machinery to the in-flight transaction
set: a scheduled shutdown timer or a resolved `safelyClose` can only
exist once `#ioResponseHandlers` has drained, and resolution closes the
socket. -/
def ShutdownInv (s : ClientState) : Prop :=
  (s.shutdownTimerSet = true →
    s.ioResponseHandlers = [] ∧ (s.resolveShutdown = true ∨ s.socketOpen = false)) ∧
  (s.shutdownResolved = true →
    s.ioResponseHandlers = [] ∧ s.socketOpen = false)

/-- A host with one registered action and one in-flight transaction. -/
def sampleBusyState : ClientState :=
  { initState [("refund", 1)] with
    ioResponseHandlers := [("t1", 7)]
    ioClients := [("t1", { inlineActionKeys := [] })] }

/-- A 10,001-character log payload. -/
def longLogLine : String := String.mk (List.replicate 10001 'a')

/-- One transaction started, `safelyClose` called while it is in flight,
the server closes it, and the shutdown delay elapses. -/
def shutdownTrace : List HostEvent :=
  [HostEvent.startTransactionMsg "t1" "refund",
   HostEvent.safelyCloseRequested true,
   HostEvent.closeTransactionMsg "t1",
   HostEvent.shutdownDelayElapsed]

/-! ## Library lemmas about the embedded maps -/

theorem SMap.find?_erase_self {α : Type} (m : SMap α) (k : String) :
    SMap.find? (SMap.erase m k) k = none := by
  induction m with
  | nil => rfl
  | cons p rest ih =>
    obtain ⟨k', v⟩ := p
    by_cases h : k' = k
    · simp [SMap.erase, h, ih]
    · simp [SMap.erase, SMap.find?, h, ih]

theorem SMap.erase_nil {α : Type} (k : String) : SMap.erase ([] : SMap α) k = [] := rfl

/-! ## Helper lemmas about the client transitions -/

theorem startTransaction_shutdown_noop (transactionId slug : String) (s : ClientState)
    (h : s.resolveShutdown = true) : startTransaction transactionId slug s = s := by
  simp [startTransaction, h]

theorem startTransaction_flags (transactionId slug : String) (s : ClientState) :
    (startTransaction transactionId slug s).shutdownTimerSet = s.shutdownTimerSet ∧
    (startTransaction transactionId slug s).shutdownResolved = s.shutdownResolved ∧
    (startTransaction transactionId slug s).resolveShutdown = s.resolveShutdown ∧
    (startTransaction transactionId slug s).socketOpen = s.socketOpen := by
  unfold startTransaction
  split
  · exact ⟨rfl, rfl, rfl, rfl⟩
  split
  · exact ⟨rfl, rfl, rfl, rfl⟩
  split
  · exact ⟨rfl, rfl, rfl, rfl⟩
  split
  · exact ⟨rfl, rfl, rfl, rfl⟩
  · exact ⟨rfl, rfl, rfl, rfl⟩

theorem closeTransaction_proj (transactionId : String) (s : ClientState) :
    (closeTransaction transactionId s).pendingIOCalls =
      SMap.erase s.pendingIOCalls transactionId ∧
    (closeTransaction transactionId s).transactionLoadingStates =
      SMap.erase s.transactionLoadingStates transactionId ∧
    (closeTransaction transactionId s).ioResponseHandlers =
      SMap.erase s.ioResponseHandlers transactionId ∧
    SMap.find? (closeTransaction transactionId s).ioClients transactionId = none ∧
    (closeTransaction transactionId s).resolveShutdown = s.resolveShutdown ∧
    (closeTransaction transactionId s).socketOpen = s.socketOpen ∧
    (closeTransaction transactionId s).shutdownResolved = s.shutdownResolved := by
  by_cases hguard :
      s.resolveShutdown = true ∧ SMap.erase s.ioResponseHandlers transactionId = [] <;>
    cases hc : SMap.find? s.ioClients transactionId <;>
      simp [closeTransaction, hc, hguard, SMap.find?_erase_self]

theorem closeTransaction_timerSet (transactionId : String) (s : ClientState)
    (h : (closeTransaction transactionId s).shutdownTimerSet = true) :
    s.shutdownTimerSet = true ∨
      (s.resolveShutdown = true ∧ SMap.erase s.ioResponseHandlers transactionId = []) := by
  by_cases hguard :
      s.resolveShutdown = true ∧ SMap.erase s.ioResponseHandlers transactionId = []
  · exact Or.inr hguard
  · left
    cases hc : SMap.find? s.ioClients transactionId <;>
      simpa [closeTransaction, hc, hguard] using h

theorem shutdownInv_startTransaction (transactionId slug : String) (s : ClientState)
    (h : ShutdownInv s) (hopen : s.socketOpen = true) :
    ShutdownInv (startTransaction transactionId slug s) := by
  by_cases hrs : s.resolveShutdown = true
  · rw [startTransaction_shutdown_noop _ _ _ hrs]; exact h
  · obtain ⟨hf1, hf2, _, _⟩ := startTransaction_flags transactionId slug s
    have htimer : s.shutdownTimerSet = false := by
      cases hts : s.shutdownTimerSet
      · rfl
      · rcases (h.1 hts).2 with hr | hso
        · exact absurd hr hrs
        · rw [hopen] at hso; exact Bool.noConfusion hso
    have hres : s.shutdownResolved = false := by
      cases hsr : s.shutdownResolved
      · rfl
      · have hso := (h.2 hsr).2
        rw [hopen] at hso; exact Bool.noConfusion hso
    constructor
    · intro ht; rw [hf1, htimer] at ht; exact Bool.noConfusion ht
    · intro ht; rw [hf2, hres] at ht; exact Bool.noConfusion ht

theorem shutdownInv_closeTransaction (transactionId : String) (s : ClientState)
    (h : ShutdownInv s) : ShutdownInv (closeTransaction transactionId s) := by
  obtain ⟨_, _, hp3, _, hp5, hp6, hp7⟩ := closeTransaction_proj transactionId s
  constructor
  · intro ht
    rcases closeTransaction_timerSet transactionId s ht with hold | ⟨hr, hnil⟩
    · have hs := h.1 hold
      refine ⟨?_, ?_⟩
      · rw [hp3, hs.1, SMap.erase_nil]
      · rcases hs.2 with hr | hso
        · exact Or.inl (by rw [hp5]; exact hr)
        · exact Or.inr (by rw [hp6]; exact hso)
    · exact ⟨by rw [hp3]; exact hnil, Or.inl (by rw [hp5]; exact hr)⟩
  · intro ht
    rw [hp7] at ht
    have hs := h.2 ht
    exact ⟨by rw [hp3, hs.1, SMap.erase_nil], by rw [hp6]; exact hs.2⟩

theorem shutdownInv_safelyCloseStep (accepted : Bool) (s : ClientState)
    (h : ShutdownInv s) : ShutdownInv (safelyCloseStep accepted s) := by
  by_cases hacc : accepted = false
  · simpa [safelyCloseStep, hacc] using h
  · by_cases hnil : s.ioResponseHandlers = []
    · constructor
      · intro ht
        refine ⟨?_, Or.inr ?_⟩ <;>
          simp [safelyCloseStep, hacc, hnil, immediatelyClose]
      · intro _
        refine ⟨?_, ?_⟩ <;>
          simp [safelyCloseStep, hacc, hnil, immediatelyClose]
    · constructor
      · intro ht
        have ht' : s.shutdownTimerSet = true := by
          simpa [safelyCloseStep, hacc, hnil] using ht
        have hs := h.1 ht'
        exact absurd hs.1 hnil
      · intro ht
        have ht' : s.shutdownResolved = true := by
          simpa [safelyCloseStep, hacc, hnil] using ht
        have hs := h.2 ht'
        exact absurd hs.1 hnil

theorem shutdownInv_shutdownTimerFired (s : ClientState) (h : ShutdownInv s) :
    ShutdownInv (shutdownTimerFired s) := by
  by_cases hguard : s.shutdownTimerSet = true ∧ s.resolveShutdown = true
  · have hnil := (h.1 hguard.1).1
    constructor
    · intro ht
      simp [shutdownTimerFired, hguard] at ht
    · intro _
      refine ⟨?_, ?_⟩ <;> simp [shutdownTimerFired, hguard, immediatelyClose, hnil]
  · simpa [shutdownTimerFired, hguard] using h

theorem shutdownInv_hostStep (s : ClientState) (e : HostEvent) (h : ShutdownInv s) :
    ShutdownInv (hostStep s e) := by
  cases e with
  | safelyCloseRequested accepted => exact shutdownInv_safelyCloseStep accepted s h
  | startTransactionMsg transactionId slug =>
    by_cases hopen : s.socketOpen = true
    · simpa [hostStep, hopen] using shutdownInv_startTransaction transactionId slug s h hopen
    · simpa [hostStep, hopen] using h
  | closeTransactionMsg transactionId =>
    by_cases hopen : s.socketOpen = true
    · simpa [hostStep, hopen] using shutdownInv_closeTransaction transactionId s h
    · simpa [hostStep, hopen] using h
  | shutdownDelayElapsed => exact shutdownInv_shutdownTimerFired s h

theorem shutdownInv_foldl (events : List HostEvent) :
    ∀ s : ClientState, ShutdownInv s → ShutdownInv (events.foldl hostStep s) := by
  induction events with
  | nil => intro s h; simpa using h
  | cons e rest ih =>
    intro s h
    simpa using ih (hostStep s e) (shutdownInv_hostStep s e h)

theorem shutdownInv_initState (actionHandlers : SMap Nat) :
    ShutdownInv (initState actionHandlers) := by
  constructor <;> intro ht <;> simp [initState] at ht

theorem shutdownInv_runEvents (actionHandlers : SMap Nat) (events : List HostEvent) :
    ShutdownInv (runEvents actionHandlers events) :=
  shutdownInv_foldl events _ (shutdownInv_initState actionHandlers)

/-! ## Claim theorems -/

/-- Claim C1, counterexample: a handler rejection with `IOError{CANCELED}`
is rethrown past the reporting step, so no `MARK_TRANSACTION_COMPLETE`
is sent for the transaction — in particular not one with status
`CANCELED` as the claim asserts. -/
theorem canceled_rejection_not_marked_complete :
    markTransactionCompleteSent (HandlerOutcome.rejectedIOError IOErrorKind.CANCELED) = none ∧
    markTransactionCompleteSent (HandlerOutcome.rejectedIOError IOErrorKind.CANCELED) ≠
      some ResultStatus.CANCELED :=
  ⟨rfl, by decide⟩

/-- Claim C1, amended: when the action handler rejects with
`IOError{CANCELED}` the host sends no `MARK_TRANSACTION_COMPLETE` at all
(the rethrown error is only logged); it reports status `SUCCESS` when
the handler resolves and `FAILURE` on any other rejection. -/
theorem mark_transaction_complete_statuses :
    markTransactionCompleteSent (HandlerOutcome.rejectedIOError IOErrorKind.CANCELED) = none ∧
    markTransactionCompleteSent HandlerOutcome.resolved = some ResultStatus.SUCCESS ∧
    (∀ kind : IOErrorKind, kind ≠ IOErrorKind.CANCELED →
      markTransactionCompleteSent (HandlerOutcome.rejectedIOError kind) =
        some ResultStatus.FAILURE) ∧
    markTransactionCompleteSent HandlerOutcome.rejectedOther = some ResultStatus.FAILURE := by
  refine ⟨rfl, rfl, ?_, rfl⟩
  intro kind hk
  cases kind <;> simp_all [markTransactionCompleteSent, actionResultStatus]

/-- Witness for the amended C1 at `IOError{TRANSACTION_CLOSED}`. -/
theorem mark_transaction_complete_statuses_witness :
    markTransactionCompleteSent
        (HandlerOutcome.rejectedIOError IOErrorKind.TRANSACTION_CLOSED) =
      some ResultStatus.FAILURE :=
  mark_transaction_complete_statuses.2.2.1 IOErrorKind.TRANSACTION_CLOSED (by decide)

/-- Claim C2: closing a transaction (server `CLOSE_TRANSACTION`, handler
completion, or cancellation all funnel into `#closeTransaction`) deletes
every runtime map entry keyed by its TransactionId: the pending IO call,
the transaction loading state, the IO response handler, and the IO
client. -/
theorem closeTransaction_erases_all_transaction_state
    (s : ClientState) (transactionId : String) :
    SMap.find? (closeTransaction transactionId s).pendingIOCalls transactionId = none ∧
    SMap.find? (closeTransaction transactionId s).transactionLoadingStates transactionId =
      none ∧
    SMap.find? (closeTransaction transactionId s).ioResponseHandlers transactionId = none ∧
    SMap.find? (closeTransaction transactionId s).ioClients transactionId = none := by
  obtain ⟨hp1, hp2, hp3, hp4, _, _, _⟩ := closeTransaction_proj transactionId s
  refine ⟨?_, ?_, ?_, hp4⟩
  · rw [hp1]; exact SMap.find?_erase_self _ _
  · rw [hp2]; exact SMap.find?_erase_self _ _
  · rw [hp3]; exact SMap.find?_erase_self _ _

/-- Claim C3, counterexample: `loading.start({itemsInQueue: 1})` followed
by two `loading.completeOne()` calls leaves `itemsCompleted = 2`, which
exceeds `itemsInQueue = 1`: `completeOne` does not clamp. -/
theorem loading_completeOne_exceeds_itemsInQueue :
    runLoadingOps
        [LoadingOp.start { itemsInQueue := some 1 }, LoadingOp.completeOne,
          LoadingOp.completeOne] =
      some { itemsInQueue := some 1, itemsCompleted := some 2 } ∧
    ¬((2 : Int) ≤ 1) :=
  ⟨rfl, by decide⟩

/-- Claim C3, amended: `completeOne` increments `itemsCompleted` by one
(zero-filling it first) whenever a loading state with a truthy
`itemsInQueue` exists, with no upper clamp — so `itemsCompleted` can
exceed `itemsInQueue`; without such a state it is a warning no-op. -/
theorem loading_completeOne_semantics :
    (∀ st : LState, truthyNum st.itemsInQueue = true →
      TransactionLoadingState.completeOne (some st) =
        some { st with itemsCompleted := some (st.itemsCompleted.getD 0 + 1) }) ∧
    (∀ st : LState, truthyNum st.itemsInQueue = false →
      TransactionLoadingState.completeOne (some st) = some st) ∧
    TransactionLoadingState.completeOne none = none := by
  refine ⟨fun st h => ?_, fun st h => ?_, rfl⟩ <;>
    simp [TransactionLoadingState.completeOne, h]

/-- Witness for the amended C3: one increment from `{itemsInQueue: 2,
itemsCompleted: 0}`, and the no-op without `itemsInQueue`. -/
theorem loading_completeOne_semantics_witness :
    TransactionLoadingState.completeOne
        (some { itemsInQueue := some 2, itemsCompleted := some 0 }) =
      some { itemsInQueue := some 2, itemsCompleted := some 1 } ∧
    TransactionLoadingState.completeOne (some { label := some "working" }) =
      some { label := some "working" } :=
  ⟨loading_completeOne_semantics.1 { itemsInQueue := some 2, itemsCompleted := some 0 } rfl,
   loading_completeOne_semantics.2.1 { label := some "working" } rfl⟩

/-- Claim C4, counterexample: `maxResendAttempts: 0` is falsy, so the
constructor keeps the default of 10; a `#send` whose every attempt times
out then makes 10 attempts, not exactly one, before failing. -/
theorem maxResendAttempts_zero_ten_attempts :
    effectiveMaxResendAttempts (some 0) = 10 ∧
    clientSend (effectiveMaxResendAttempts (some 0)).toNat
        (fun _ => AttemptOutcome.timeout) =
      SendResult.maxAttemptsError 10 ∧
    (10 : Nat) ≠ 1 :=
  ⟨by decide, by decide, by decide⟩

/-- Claim C4, amended: a non-positive `maxResendAttempts` (0 included)
is ignored by the constructor, leaving the default of 10, and a `#send`
whose every attempt times out makes `#maxResendAttempts` attempts before
failing with the max-attempts error — 10 attempts for the
`maxResendAttempts = 0` configuration. -/
theorem maxResendAttempts_nonpositive_ignored :
    (∀ v : Int, v ≤ 0 → effectiveMaxResendAttempts (some v) = 10) ∧
    (∀ n : Nat, clientSend n (fun _ => AttemptOutcome.timeout) =
      SendResult.maxAttemptsError n) := by
  constructor
  · intro v hv
    have : ¬(v ≠ 0 ∧ 0 < v) := by
      rintro ⟨_, hpos⟩; omega
    simp [effectiveMaxResendAttempts, this]
  · intro n
    suffices hgen : ∀ (k made : Nat),
        sendLoopAux (fun _ => AttemptOutcome.timeout) made k =
          SendResult.maxAttemptsError (made + k) by
      simpa using hgen n 0
    intro k
    induction k with
    | zero => intro made; simp [sendLoopAux]
    | succ m ih =>
      intro made
      have := ih (made + 1)
      simp only [sendLoopAux, this]
      congr 1
      omega

/-- Witness for the amended C4 at `maxResendAttempts = -3` and a
3-attempt all-timeout run. -/
theorem maxResendAttempts_nonpositive_ignored_witness :
    effectiveMaxResendAttempts (some (-3)) = 10 ∧
    clientSend 3 (fun _ => AttemptOutcome.timeout) = SendResult.maxAttemptsError 3 :=
  ⟨maxResendAttempts_nonpositive_ignored.1 (-3) (by decide),
   maxResendAttempts_nonpositive_ignored.2 3⟩

/-- Claim C5, counterexample: a `CALL` whose data fails the responder
input schema makes `handleReceivedCall` throw a `ZodError`, which
`onmessage` catches and logs — the call is dropped with no response, not
answered with a default-null result (the connection does stay alive). -/
theorem invalid_call_dropped_without_response :
    processReceivedCall true (Except.error () : Except Unit Nat)
        (fun n : Nat => some n) =
      { handling := CallHandling.droppedInvalidCall, connectionKilled := false } ∧
    (CallHandling.droppedInvalidCall : CallHandling (Option Nat)) ≠
      CallHandling.responseSent none :=
  ⟨rfl, by decide⟩

/-- Claim C5, amended: an incoming `CALL` whose data fails input-schema
validation is caught and logged (`Received invalid call`) with no
response sent to the caller, and the connection is not killed. -/
theorem invalid_call_logged_and_dropped (Inp Out : Type) (err : Unit)
    (handler : Inp → Out) :
    processReceivedCall true (Except.error err : Except Unit Inp) handler =
      { handling := CallHandling.droppedInvalidCall, connectionKilled := false } :=
  rfl

/-- Witness for the amended C5 at concrete types. -/
theorem invalid_call_logged_and_dropped_witness :
    processReceivedCall true (Except.error () : Except Unit Nat) (fun n : Nat => n + 1) =
      { handling := CallHandling.droppedInvalidCall, connectionKilled := false } :=
  invalid_call_logged_and_dropped Nat Nat () (fun n => n + 1)

/-- Claim C6: a `START_TRANSACTION` whose TransactionId already has a
registered IO response handler returns early, leaving the whole client
state — in particular the `#ioClients` map — untouched: no second
IOClient is created and the existing one is not replaced. -/
theorem startTransaction_no_duplicate_ioClient (s : ClientState)
    (transactionId slug : String)
    (h : (SMap.find? s.ioResponseHandlers transactionId).isSome = true) :
    startTransaction transactionId slug s = s ∧
    (startTransaction transactionId slug s).ioClients = s.ioClients := by
  have heq : startTransaction transactionId slug s = s := by
    simp [startTransaction, h]
  exact ⟨heq, by rw [heq]⟩

/-- Witness for C6: a busy host with transaction `t1` in flight ignores
a duplicate `START_TRANSACTION` for `t1`. -/
theorem startTransaction_no_duplicate_ioClient_witness :
    startTransaction "t1" "refund" sampleBusyState = sampleBusyState :=
  (startTransaction_no_duplicate_ioClient sampleBusyState "t1" "refund" (by decide)).1

/-- Claim C7: once `safelyClose` has sent `BEGIN_HOST_SHUTDOWN` and
parked its resolver (`#resolveShutdown`), every received
`START_TRANSACTION` is refused locally with no state change; and in any
event trace from a fresh host, whenever the `safelyClose` promise has
resolved (which closes the socket), the in-flight set
`#ioResponseHandlers` had drained to empty — resolution happens via the
`#completeShutdownDelayMs` timer scheduled only once the set empties. -/
theorem safelyClose_refuses_new_and_drains :
    (∀ (s : ClientState) (transactionId slug : String), s.resolveShutdown = true →
      hostStep s (HostEvent.startTransactionMsg transactionId slug) = s) ∧
    (∀ (actionHandlers : SMap Nat) (events : List HostEvent),
      (runEvents actionHandlers events).shutdownResolved = true →
      (runEvents actionHandlers events).ioResponseHandlers = [] ∧
      (runEvents actionHandlers events).socketOpen = false) := by
  constructor
  · intro s transactionId slug h
    by_cases hopen : s.socketOpen = true <;>
      simp [hostStep, hopen, startTransaction_shutdown_noop transactionId slug s h]
  · intro actionHandlers events h
    exact (shutdownInv_runEvents actionHandlers events).2 h

/-- Witness for C7: a shutting-down host refuses a `START_TRANSACTION`,
and the concrete trace `shutdownTrace` resolves `safelyClose` only after
its one transaction completes, with the socket closed. -/
theorem safelyClose_refuses_new_and_drains_witness :
    hostStep { initState [] with resolveShutdown := true }
        (HostEvent.startTransactionMsg "t9" "refund") =
      { initState [] with resolveShutdown := true } ∧
    ((runEvents [("refund", 1)] shutdownTrace).ioResponseHandlers = [] ∧
      (runEvents [("refund", 1)] shutdownTrace).socketOpen = false) :=
  ⟨safelyClose_refuses_new_and_drains.1 _ "t9" "refund" rfl,
   safelyClose_refuses_new_and_drains.2 [("refund", 1)] shutdownTrace (by decide)⟩

/-- Claim C8: the joined `ctx.log` payload is sent unmodified when its
length is at most 10,000 characters (10,000 included), and otherwise is
truncated to the first 10,000 characters with the warning marker
appended. -/
theorem sendLog_truncation (data : String) :
    (data.length ≤ 10000 → sendLogData data = data) ∧
    (10000 < data.length →
      sendLogData data = String.take data 10000 ++ LOG_TRUNCATION_MARKER) := by
  constructor
  · intro h
    unfold sendLogData
    rw [if_neg]
    omega
  · intro h
    unfold sendLogData
    rw [if_pos h]

/-- Witness for C8 on a short payload and a 10,001-character payload. -/
theorem sendLog_truncation_witness :
    sendLogData "hello" = "hello" ∧
    sendLogData longLogLine = String.take longLogLine 10000 ++ LOG_TRUNCATION_MARKER :=
  ⟨(sendLog_truncation "hello").1 (by decide),
   (sendLog_truncation longLogLine).2 (by
    have h1 : longLogLine.length = (List.replicate 10001 'a').length := rfl
    have h2 : (List.replicate 10001 'a').length = 10001 := List.length_replicate 10001 'a'
    omega)⟩

/-- Claim C9: a chunk whose sends all time out is retried
`NUM_TRIES_PER_CHUNK = 3` times after the initial attempt, sleeping
`#retryChunkIntervalMs` after each timeout, and only once those retries
are exhausted does a `TimeoutError` propagate to the send promise of
the caller; a success on any attempt prevents the failure. -/
theorem chunk_timeout_retried_three_times (retryChunkIntervalMs : Nat)
    (attempts : Nat → ChunkAttemptOutcome) :
    ((∀ i, i ≤ NUM_TRIES_PER_CHUNK → attempts i = ChunkAttemptOutcome.timedOut) →
      sendChunk retryChunkIntervalMs attempts =
        ChunkSendResult.timeoutPropagated (NUM_TRIES_PER_CHUNK + 1)
          (List.replicate (NUM_TRIES_PER_CHUNK + 1) retryChunkIntervalMs)) ∧
    (∀ k, k ≤ NUM_TRIES_PER_CHUNK → (∀ i, i < k → attempts i = ChunkAttemptOutcome.timedOut) →
      attempts k = ChunkAttemptOutcome.delivered →
      sendChunk retryChunkIntervalMs attempts =
        ChunkSendResult.delivered (k + 1) (List.replicate k retryChunkIntervalMs)) := by
  constructor
  · intro h
    simp [sendChunk, sendChunkAux, NUM_TRIES_PER_CHUNK, h 0 (by decide), h 1 (by decide),
      h 2 (by decide), h 3 (by decide), List.replicate]
  · intro k hk hbefore hdeliver
    have hk3 : k ≤ 3 := by simpa [NUM_TRIES_PER_CHUNK] using hk
    interval_cases k
    · simp [sendChunk, sendChunkAux, NUM_TRIES_PER_CHUNK, hdeliver, List.replicate]
    · simp [sendChunk, sendChunkAux, NUM_TRIES_PER_CHUNK, hbefore 0 (by decide), hdeliver,
        List.replicate]
    · simp [sendChunk, sendChunkAux, NUM_TRIES_PER_CHUNK, hbefore 0 (by decide),
        hbefore 1 (by decide), hdeliver, List.replicate]
    · simp [sendChunk, sendChunkAux, NUM_TRIES_PER_CHUNK, hbefore 0 (by decide),
        hbefore 1 (by decide), hbefore 2 (by decide), hdeliver, List.replicate]

/-- Witness for C9: four timeouts propagate a timeout after four sends
and four interval sleeps; a success on the third attempt delivers. -/
theorem chunk_timeout_retried_three_times_witness :
    sendChunk 100 (fun _ => ChunkAttemptOutcome.timedOut) =
      ChunkSendResult.timeoutPropagated 4 [100, 100, 100, 100] ∧
    sendChunk 100
        (fun i => if i < 2 then ChunkAttemptOutcome.timedOut
          else ChunkAttemptOutcome.delivered) =
      ChunkSendResult.delivered 3 [100, 100] := by
  constructor
  · have h := (chunk_timeout_retried_three_times 100 (fun _ => ChunkAttemptOutcome.timedOut)).1
      (fun i _ => rfl)
    simpa [NUM_TRIES_PER_CHUNK, List.replicate] using h
  · have h := (chunk_timeout_retried_three_times 100
        (fun i => if i < 2 then ChunkAttemptOutcome.timedOut
          else ChunkAttemptOutcome.delivered)).2
      2 (by decide) (fun i hi => by simp [hi]) (by norm_num)
    simpa [List.replicate] using h

/-- Claim C10: a `RESPONSE` whose id matches a pending call delivers to
its reply continuation exactly once and removes the entry, so a later
`RESPONSE` with the same id — or any id with no pending call — is
ignored with no effect on the pending-call map. -/
theorem response_settles_at_most_once {R : Type} (pendingCalls : SMap R) (id : String) :
    (SMap.find? pendingCalls id = none →
      handleReceivedResponse pendingCalls id = (pendingCalls, none)) ∧
    (∀ onReply, SMap.find? pendingCalls id = some onReply →
      handleReceivedResponse pendingCalls id = (SMap.erase pendingCalls id, some onReply) ∧
      SMap.find? (handleReceivedResponse pendingCalls id).1 id = none) ∧
    handleReceivedResponse (handleReceivedResponse pendingCalls id).1 id =
      ((handleReceivedResponse pendingCalls id).1, none) := by
  refine ⟨fun h => ?_, fun onReply h => ?_, ?_⟩
  · simp [handleReceivedResponse, h]
  · simp [handleReceivedResponse, h, SMap.find?_erase_self]
  · cases h : SMap.find? pendingCalls id with
    | none => simp [handleReceivedResponse, h]
    | some onReply => simp [handleReceivedResponse, h, SMap.find?_erase_self]

/-- Witness for C10 on a pending call registered by `send` under id
`"1"`: the first response delivers and erases, the second is ignored. -/
theorem response_settles_at_most_once_witness :
    handleReceivedResponse (registerPendingCall ([] : SMap Nat) "1" 42) "1" =
      (SMap.erase (registerPendingCall ([] : SMap Nat) "1" 42) "1", some 42) ∧
    handleReceivedResponse
        (handleReceivedResponse (registerPendingCall ([] : SMap Nat) "1" 42) "1").1 "1" =
      ((handleReceivedResponse (registerPendingCall ([] : SMap Nat) "1" 42) "1").1, none) :=
  ⟨((response_settles_at_most_once (registerPendingCall ([] : SMap Nat) "1" 42) "1").2.1
      42 (by decide)).1,
   (response_settles_at_most_once (registerPendingCall ([] : SMap Nat) "1" 42) "1").2.2⟩

end UtilHQ
